import Mathlib

/-
  Verification of the FetchNode core (src/scrapegraphai/nodes/fetch_node.py)
  against its natural-language specification.

  Shallow embedding conventions:
  * The shared pipeline state (a Python dict) is a function from string keys
    to optional values.
  * External capabilities (the Cleaner cleanup_html, requests.get, the
    BeautifulSoup HTML parser and its prettify, and the AsyncChromiumLoader
    headless browser) are bundled in an Ext record and quantified over:
    the spec treats them as external collaborators, specified only at their
    interface.
  * Python exceptions are modelled by an explicit error component of the
    execution result; a raised exception aborts before the final state
    update, so the state component returned on error is the caller's state
    unchanged.
  * The network and browser calls the execution performs are recorded in an
    explicit trace, so that claims about which fetches are attempted are
    statable.
-/

namespace ScrapeGraph

/-- A langchain Document as FetchNode builds it: page_content plus a
metadata dict (modelled as an association list; FetchNode only ever stores
the key "source" or leaves the metadata empty). -/
structure Document where
  page_content : String
  metadata : List (String × String)
deriving DecidableEq

/-- Values stored in the pipeline state at the keys FetchNode touches:
either a string (the source reference read from the input key) or a list of
documents (written to the output key). -/
inductive Value where
  | str (s : String)
  | docs (ds : List Document)
deriving DecidableEq

/-- The pipeline state: a mapping from string keys to values, none meaning
the key is absent. -/
def StateMap : Type := String → Option Value

/-- Python exceptions that fetch_node.py can raise. -/
inductive PyError where
  | keyError (key : String)
  | typeError
  | nameError (name : String)
  | attributeError (name : String)
  | indexError
deriving DecidableEq

/-- Trace of external fetch calls made during one execution:
a synchronous requests.get, or an AsyncChromiumLoader run with an optional
proxy endpoint and the headless flag. -/
inductive Call where
  | get (url : String)
  | chromium (url : String) (proxy : Option String) (headless : Bool)
deriving DecidableEq

/-- Result of one execute invocation: the exception raised (none on
success), the resulting state (on an exception, the caller's state
unchanged, since the only state mutation is the final update), and the
trace of external fetch calls. -/
structure ExecResult where
  error : Option PyError
  state : StateMap
  calls : List Call

/-- An HTML node as the BeautifulSoup parse produces it: an element with a
tag, an attribute dict and children, or a text node. -/
inductive HtmlNode where
  | elem (tag : String) (attrs : List (String × String)) (children : List HtmlNode)
  | text (s : String)

mutual

/-- soup.find_all applied to anchor tags: the attribute dicts of all elements
with tag a, in document (preorder) order. -/
def findAnchors : HtmlNode → List (List (String × String))
  | .text _ => []
  | .elem tag attrs children =>
      (if tag = "a" then [attrs] else []) ++ findAnchorsList children

/-- find_all over a list of sibling nodes, left to right. -/
def findAnchorsList : List HtmlNode → List (List (String × String))
  | [] => []
  | c :: cs => findAnchors c ++ findAnchorsList cs

end

/-- The loop of fetch_node.py lines 82-85: for each found anchor, append
its href attribute to link_urls when the attribute dict contains href. -/
def extractHrefs : List (List (String × String)) → List String
  | [] => []
  | attrs :: rest =>
      match attrs.lookup "href" with
      | some v => v :: extractHrefs rest
      | none => extractHrefs rest

/-- link_urls as computed from a parsed soup. -/
def linkUrls (soup : HtmlNode) : List String :=
  extractHrefs (findAnchors soup)

/-- The node_config dict passed to the constructor, restricted to the keys
fetch_node.py reads: useSoup, headless, verbose, endpoint. A field being
none models the dict omitting that key. -/
structure NodeConfigDict where
  useSoup : Option Bool
  headless : Option Bool
  verbose : Option Bool
  endpoint : Option String

/-- The FetchNode instance attributes after construction. The node_config
field models the presence of a node_config ATTRIBUTE on the instance:
none means the attribute was never assigned (reading it raises
AttributeError), some cfg means it was assigned the Optional dict cfg. -/
structure FetchNode where
  node_name : String
  input : String
  output : List String
  useSoup : Bool
  headless : Bool
  verbose : Bool
  node_config : Option (Option NodeConfigDict)

/-- FetchNode.__init__ (fetch_node.py lines 34-39). It stores useSoup,
headless and verbose (each read from node_config with its default), and
never assigns self.node_config.

Modelled from the spec: BaseNode.__init__ (base_node.py, not in src/) is
called with only node_name, node type, input, output and a minimum input
length; per the spec the node-wide configuration fields are exactly those
set here at construction, so the base constructor assigns no node_config
attribute either. -/
def FetchNode.init (input : String) (output : List String)
    (node_config : Option NodeConfigDict) (node_name : String) : FetchNode :=
  ⟨node_name, input, output,
    (match node_config with | none => true | some d => d.useSoup.getD true),
    (match node_config with | none => true | some d => d.headless.getD true),
    (match node_config with | none => false | some d => d.verbose.getD false),
    none⟩

/-- Modelled from the spec: BaseNode.get_input_keys (base_node.py, not in
src/) interprets the input expression against the state; the spec says this
core reads exactly one declared input key, so the key list is the singleton
holding the input expression, and source = input_data[0] is the state's
value at that key. -/
def inputKey (node : FetchNode) : String :=
  node.input

/-- Python str.startswith: true exactly when the second string is a prefix
of the first. Defined over the character lists so that it evaluates by
kernel reduction; extensionally the same test as String.startsWith. -/
def startswith (s p : String) : Bool :=
  p.data.isPrefixOf s.data

/-- The external capabilities fetch_node.py calls, specified only at their
interface: cleanup_html (with its optional link-list argument), a
synchronous requests.get returning status code and body text, the
BeautifulSoup parse of a body, soup.prettify, and the headless-browser
render of a URL through an optional proxy endpoint returning the page
content of the single loaded document. -/
structure Ext where
  cleanup_html : String → Option (List String) → String
  get : String → Nat × String
  parse : String → HtmlNode
  prettify : HtmlNode → String
  render : String → Option String → Bool → String

/-- The final lines 107-108: state.update with self.output[0] mapped to the
compressed document list. Indexing an empty output list raises IndexError;
otherwise exactly the output key is updated. -/
def writeOutput (node : FetchNode) (state : StateMap) (calls : List Call)
    (docs : List Document) : ExecResult :=
  match node.output.head? with
  | none => ⟨some .indexError, state, calls⟩
  | some o => ⟨none, fun k => if k = o then some (.docs docs) else state k, calls⟩

/-- Lines 77-88, the static strategy: requests.get on the source; on status
200, parse the body, collect link_urls from the anchors and build the
document from cleanup_html of the prettified soup and the links; otherwise
the diagnostic print references the unbound identifier url, raising
NameError before any state update. -/
def staticFetch (ext : Ext) (node : FetchNode) (state : StateMap)
    (source : String) : ExecResult :=
  if (ext.get source).1 = 200 then
    writeOutput node state [Call.get source]
      [⟨ext.cleanup_html (ext.prettify (ext.parse (ext.get source).2))
          (some (linkUrls (ext.parse (ext.get source).2))), []⟩]
  else
    ⟨some (.nameError "url"), state, [Call.get source]⟩

/-- The proxy the dynamic strategy passes to the loader (lines 90-101):
when the config dict is present and holds an endpoint, the loader is built
with that endpoint as its proxy, otherwise with no proxy. -/
def configProxy (cfgOpt : Option NodeConfigDict) : Option String :=
  match cfgOpt with
  | some d => d.endpoint
  | none => none

/-- Lines 89-105, the dynamic strategy: reading self.node_config raises
AttributeError when the attribute was never assigned; otherwise, when the
config dict is present and has an endpoint, the loader is built with that
endpoint as proxy, else with no proxy, and the document is built from
cleanup_html of the rendered page content. -/
def dynamicFetch (ext : Ext) (node : FetchNode) (state : StateMap)
    (source : String) : ExecResult :=
  match node.node_config with
  | none => ⟨some (.attributeError "node_config"), state, []⟩
  | some cfgOpt =>
      writeOutput node state
        [Call.chromium source (configProxy cfgOpt) node.headless]
        [⟨ext.cleanup_html
            (ext.render source (configProxy cfgOpt) node.headless) none, []⟩]

/-- Lines 67-105, the strategy selection on the read source string: a
json_dir/xml_dir/csv_dir input expression wraps the source verbatim with
metadata source = local_dir; a source not starting with http is passed once
through cleanup_html with metadata source = local_dir; otherwise useSoup
selects the static requests.get strategy and its negation the dynamic
headless-browser strategy. -/
def dispatch (ext : Ext) (node : FetchNode) (state : StateMap)
    (source : String) : ExecResult :=
  if node.input = "json_dir" ∨ node.input = "xml_dir" ∨ node.input = "csv_dir" then
    writeOutput node state [] [⟨source, [("source", "local_dir")]⟩]
  else if startswith source "http" = false then
    writeOutput node state [] [⟨ext.cleanup_html source none, [("source", "local_dir")]⟩]
  else if node.useSoup then
    staticFetch ext node state source
  else
    dynamicFetch ext node state source

/-- FetchNode.execute (fetch_node.py lines 41-108). Reads the single input
key (KeyError when absent, TypeError when its value is not a string), then
dispatches on the source; finally the chosen strategy writes its
single-document list to the first output key. -/
def FetchNode.execute (ext : Ext) (node : FetchNode) (state : StateMap) :
    ExecResult :=
  match state (inputKey node) with
  | none => ⟨some (.keyError (inputKey node)), state, []⟩
  | some (.docs _) => ⟨some .typeError, state, []⟩
  | some (.str source) => dispatch ext node state source

/-! Example fixtures. -/

/-- The example response body of the spec's static-fetch test property. -/
def exampleBody : String :=
  "<html><body><a href=\"/a\">x</a><a href=\"/b\">y</a></body></html>"

/-- The html.parser parse tree of exampleBody: a document root holding the
html element, whose body holds two anchors with hrefs /a and /b in document
order. -/
def exampleSoup : HtmlNode :=
  .elem "[document]" []
    [.elem "html" []
      [.elem "body" []
        [.elem "a" [("href", "/a")] [.text "x"],
         .elem "a" [("href", "/b")] [.text "y"]]]]

/-! Helper lemmas. -/

/-- The href-collecting loop is the order- and duplicate-preserving
filterMap of the href lookup over the anchor list. -/
theorem extractHrefs_eq_filterMap (l : List (List (String × String))) :
    extractHrefs l = l.filterMap (fun attrs => attrs.lookup "href") := by
  induction l with
  | nil => rfl
  | cons a rest ih =>
      unfold extractHrefs
      cases h : a.lookup "href" with
      | none => simp [h, ih]
      | some v => simp [h, ih]

/-- writeOutput records exactly the calls it is given. -/
theorem writeOutput_calls (node : FetchNode) (state : StateMap)
    (calls : List Call) (docs : List Document) :
    (writeOutput node state calls docs).calls = calls := by
  unfold writeOutput
  cases node.output.head? <;> rfl

/-- When writeOutput succeeds, the first output key exists and now holds
exactly the given document list. -/
theorem writeOutput_ok (node : FetchNode) (state : StateMap)
    (calls : List Call) (docs : List Document)
    (h : (writeOutput node state calls docs).error = none) :
    ∃ o, node.output.head? = some o ∧
      (writeOutput node state calls docs).state o = some (.docs docs) := by
  cases ho : node.output.head? with
  | none =>
      unfold writeOutput at h
      rw [ho] at h
      exact Option.noConfusion h
  | some o =>
      refine ⟨o, rfl, ?_⟩
      unfold writeOutput
      rw [ho]
      simp

/-- writeOutput touches no key other than the first output key. -/
theorem writeOutput_frame (node : FetchNode) (state : StateMap)
    (calls : List Call) (docs : List Document) (k : String)
    (hk : node.output.head? ≠ some k) :
    (writeOutput node state calls docs).state k = state k := by
  unfold writeOutput
  cases ho : node.output.head? with
  | none => rfl
  | some o =>
      rw [ho] at hk
      have : ¬ k = o := fun he => hk (by rw [he])
      simp [this]

/-- Reading a present string value at the input key reaches the dispatch. -/
theorem execute_str (ext : Ext) (node : FetchNode) (state : StateMap)
    (source : String) (hst : state (inputKey node) = some (.str source)) :
    node.execute ext state = dispatch ext node state source := by
  unfold FetchNode.execute
  rw [hst]

/-- Path lemma for the literal (json_dir/xml_dir/csv_dir) branch. -/
theorem dispatch_dir (ext : Ext) (node : FetchNode) (state : StateMap)
    (source : String)
    (hin : node.input = "json_dir" ∨ node.input = "xml_dir" ∨ node.input = "csv_dir") :
    dispatch ext node state source =
      writeOutput node state [] [⟨source, [("source", "local_dir")]⟩] := by
  unfold dispatch
  rw [if_pos hin]

/-- Path lemma for the local (non-http) branch. -/
theorem dispatch_local (ext : Ext) (node : FetchNode) (state : StateMap)
    (source : String)
    (hnotdir : ¬(node.input = "json_dir" ∨ node.input = "xml_dir" ∨ node.input = "csv_dir"))
    (hlocal : startswith source "http" = false) :
    dispatch ext node state source =
      writeOutput node state []
        [⟨ext.cleanup_html source none, [("source", "local_dir")]⟩] := by
  unfold dispatch
  rw [if_neg hnotdir, if_pos hlocal]

/-- Path lemma for the static (useSoup, http) branch. -/
theorem dispatch_static (ext : Ext) (node : FetchNode) (state : StateMap)
    (source : String)
    (hnotdir : ¬(node.input = "json_dir" ∨ node.input = "xml_dir" ∨ node.input = "csv_dir"))
    (hhttp : startswith source "http" = true)
    (hsoup : node.useSoup = true) :
    dispatch ext node state source = staticFetch ext node state source := by
  unfold dispatch
  rw [if_neg hnotdir, if_neg (by simp [hhttp]), if_pos hsoup]

/-- Path lemma for the dynamic (not useSoup, http) branch. -/
theorem dispatch_dynamic (ext : Ext) (node : FetchNode) (state : StateMap)
    (source : String)
    (hnotdir : ¬(node.input = "json_dir" ∨ node.input = "xml_dir" ∨ node.input = "csv_dir"))
    (hhttp : startswith source "http" = true)
    (hsoup : node.useSoup = false) :
    dispatch ext node state source = dynamicFetch ext node state source := by
  unfold dispatch
  rw [if_neg hnotdir, if_neg (by simp [hhttp]), if_neg (by simp [hsoup])]

/-- Path lemma for the 200 case of the static fetch. -/
theorem staticFetch_200 (ext : Ext) (node : FetchNode) (state : StateMap)
    (source : String) (hstatus : (ext.get source).1 = 200) :
    staticFetch ext node state source =
      writeOutput node state [Call.get source]
        [⟨ext.cleanup_html (ext.prettify (ext.parse (ext.get source).2))
            (some (linkUrls (ext.parse (ext.get source).2))), []⟩] := by
  unfold staticFetch
  rw [if_pos hstatus]

/-- Path lemma for the non-200 case of the static fetch: NameError from
the unbound identifier url in the diagnostic print, state untouched, one
GET attempted. -/
theorem staticFetch_non200 (ext : Ext) (node : FetchNode) (state : StateMap)
    (source : String) (hstatus : (ext.get source).1 ≠ 200) :
    staticFetch ext node state source =
      ⟨some (.nameError "url"), state, [Call.get source]⟩ := by
  unfold staticFetch
  rw [if_neg hstatus]

/-- Path lemma for the dynamic fetch when the node_config attribute was
never assigned: AttributeError, state untouched, no fetch call. -/
theorem dynamicFetch_noattr (ext : Ext) (node : FetchNode) (state : StateMap)
    (source : String) (hcfg : node.node_config = none) :
    dynamicFetch ext node state source =
      ⟨some (.attributeError "node_config"), state, []⟩ := by
  unfold dynamicFetch
  rw [hcfg]

/-- Path lemma: an absent input key raises KeyError before anything else. -/
theorem execute_keyError (ext : Ext) (node : FetchNode) (state : StateMap)
    (hst : state (inputKey node) = none) :
    node.execute ext state = ⟨some (.keyError (inputKey node)), state, []⟩ := by
  unfold FetchNode.execute
  rw [hst]

/-- Path lemma: a non-string value at the input key raises TypeError. -/
theorem execute_typeError (ext : Ext) (node : FetchNode) (state : StateMap)
    (ds : List Document) (hst : state (inputKey node) = some (.docs ds)) :
    node.execute ext state = ⟨some .typeError, state, []⟩ := by
  unfold FetchNode.execute
  rw [hst]

/-! Concrete fixtures for closed statements. -/

/-- Externals whose HTTP client answers 404 to every GET. -/
def ext404 : Ext :=
  ⟨fun s _ => s, fun _ => (404, "Not Found"), fun _ => .text "", fun _ => "",
   fun _ _ _ => ""⟩

/-- Externals whose HTTP client answers 200 with exampleBody, parsed to
exampleSoup. -/
def ext200 : Ext :=
  ⟨fun s _ => s, fun _ => (200, exampleBody), fun _ => exampleSoup,
   fun _ => "prettified", fun _ _ _ => "rendered"⟩

/-- A state holding a remote URL under the key url. -/
def stateUrl : StateMap :=
  fun k => if k = "url" then some (.str "http://example.com/missing") else none

/-- A state holding a local reference under the key url. -/
def stateLocal : StateMap :=
  fun k => if k = "url" then some (.str "file.html") else none

/-- A state holding literal data under the key json_dir. -/
def stateDir : StateMap :=
  fun k => if k = "json_dir" then some (.str "literal data") else none

/-- A node constructed with no node_config. -/
def nodeDefault : FetchNode :=
  FetchNode.init "url" ["doc"] none "Fetch"

/-- A node whose declared input kind is json_dir. -/
def nodeDir : FetchNode :=
  FetchNode.init "json_dir" ["doc"] none "Fetch"

/-- A config dict selecting the dynamic strategy with a proxy endpoint. -/
def cfgDyn : NodeConfigDict :=
  ⟨some false, none, none, some "http://proxy:8080"⟩

/-- A config dict selecting the dynamic strategy with no endpoint. -/
def cfgNoSoup : NodeConfigDict :=
  ⟨some false, none, none, none⟩

/-- A config dict omitting every key but endpoint. -/
def cfgEndpointOnly : NodeConfigDict :=
  ⟨none, none, none, some "http://proxy:8080"⟩

/-- A node constructed with cfgDyn. -/
def nodeDyn : FetchNode :=
  FetchNode.init "url" ["doc"] (some cfgDyn) "Fetch"

/-! Claim theorems. -/

/-- C3: whenever the declared input kind is json_dir, xml_dir or csv_dir,
the produced document's content equals the input string verbatim (no
cleanup pass is applied), its metadata source entry is local_dir, and no
fetch call is made. -/
theorem dir_input_literal_passthrough (ext : Ext) (node : FetchNode)
    (state : StateMap) (source o : String)
    (hin : node.input = "json_dir" ∨ node.input = "xml_dir" ∨ node.input = "csv_dir")
    (hst : state (inputKey node) = some (.str source))
    (ho : node.output.head? = some o) :
    (node.execute ext state).error = none ∧
    (node.execute ext state).state o =
      some (.docs [⟨source, [("source", "local_dir")]⟩]) ∧
    (node.execute ext state).calls = [] := by
  rw [execute_str ext node state source hst, dispatch_dir ext node state source hin]
  refine ⟨?_, ?_, writeOutput_calls node state _ _⟩
  · unfold writeOutput
    rw [ho]
  · unfold writeOutput
    rw [ho]
    simp

/-- Witness for C3 at a concrete node, state and literal input. -/
theorem dir_input_literal_passthrough_witness :
    (nodeDir.execute ext404 stateDir).error = none ∧
    (nodeDir.execute ext404 stateDir).state "doc" =
      some (.docs [⟨"literal data", [("source", "local_dir")]⟩]) ∧
    (nodeDir.execute ext404 stateDir).calls = [] :=
  dir_input_literal_passthrough ext404 nodeDir stateDir "literal data" "doc"
    (Or.inl rfl) rfl rfl

/-- C4: a source that is not of a literal input kind and does not start
with http is passed once through the Cleaner; the produced document's
content is cleanup_html of the reference, its metadata source entry is
local_dir, and no fetch call is made. -/
theorem local_source_cleaned (ext : Ext) (node : FetchNode)
    (state : StateMap) (source o : String)
    (hnotdir : ¬(node.input = "json_dir" ∨ node.input = "xml_dir" ∨ node.input = "csv_dir"))
    (hst : state (inputKey node) = some (.str source))
    (hlocal : startswith source "http" = false)
    (ho : node.output.head? = some o) :
    (node.execute ext state).error = none ∧
    (node.execute ext state).state o =
      some (.docs [⟨ext.cleanup_html source none, [("source", "local_dir")]⟩]) ∧
    (node.execute ext state).calls = [] := by
  rw [execute_str ext node state source hst,
      dispatch_local ext node state source hnotdir hlocal]
  refine ⟨?_, ?_, writeOutput_calls node state _ _⟩
  · unfold writeOutput
    rw [ho]
  · unfold writeOutput
    rw [ho]
    simp

/-- Witness for C4 at a concrete node, state and local reference. -/
theorem local_source_cleaned_witness :
    (nodeDefault.execute ext404 stateLocal).error = none ∧
    (nodeDefault.execute ext404 stateLocal).state "doc" =
      some (.docs [⟨ext404.cleanup_html "file.html" none, [("source", "local_dir")]⟩]) ∧
    (nodeDefault.execute ext404 stateLocal).calls = [] :=
  local_source_cleaned ext404 nodeDefault stateLocal "file.html" "doc"
    (by decide) rfl (by decide) rfl

/-- C1 (code behavior at the failing input): with the static strategy
selected and the GET answering 404, the execution fails by raising
NameError for the unbound identifier url in the diagnostic print — not the
FetchError carrying the URL and status that the claim requires — after the
single attempted GET; the state is unchanged, so no document is written. -/
theorem static_404_behavior :
    (nodeDefault.execute ext404 stateUrl).error = some (.nameError "url") ∧
    (nodeDefault.execute ext404 stateUrl).state = stateUrl ∧
    (nodeDefault.execute ext404 stateUrl).calls =
      [Call.get "http://example.com/missing"] := by
  rw [execute_str ext404 nodeDefault stateUrl "http://example.com/missing" rfl,
      dispatch_static ext404 nodeDefault stateUrl "http://example.com/missing"
        (by decide) (by decide) rfl,
      staticFetch_non200 ext404 nodeDefault stateUrl "http://example.com/missing"
        (by decide)]
  exact ⟨rfl, rfl, rfl⟩

/-- C5 (code behavior at the failing input): with useSoup false and an
endpoint configured, the execution raises AttributeError while reading the
never-assigned node_config attribute, so the rendering call is never
invoked at all (the call trace is empty) — the endpoint is not routed
through, contrary to the claim. -/
theorem dynamic_endpoint_unreached :
    (nodeDyn.execute ext404 stateUrl).error = some (.attributeError "node_config") ∧
    (nodeDyn.execute ext404 stateUrl).state = stateUrl ∧
    (nodeDyn.execute ext404 stateUrl).calls = [] := by
  rw [execute_str ext404 nodeDyn stateUrl "http://example.com/missing" rfl,
      dispatch_dynamic ext404 nodeDyn stateUrl "http://example.com/missing"
        (by decide) (by decide) rfl,
      dynamicFetch_noattr ext404 nodeDyn stateUrl "http://example.com/missing" rfl]
  exact ⟨rfl, rfl, rfl⟩

/-- C9: on the dynamic-render path (useSoup false, source starting with
http), execute reads self.node_config, which the constructor never assigns
on the instance; the execution therefore raises AttributeError before any
document is written (the state is unchanged and no fetch call is made),
whatever node_config dict was passed at construction. -/
theorem dynamic_path_attributeError (ext : Ext) (inp name source : String)
    (out : List String) (cfg : NodeConfigDict) (state : StateMap)
    (hUse : cfg.useSoup = some false)
    (hnotdir : ¬(inp = "json_dir" ∨ inp = "xml_dir" ∨ inp = "csv_dir"))
    (hst : state inp = some (.str source))
    (hhttp : startswith source "http" = true) :
    ((FetchNode.init inp out (some cfg) name).execute ext state).error =
      some (.attributeError "node_config") ∧
    ((FetchNode.init inp out (some cfg) name).execute ext state).state = state ∧
    ((FetchNode.init inp out (some cfg) name).execute ext state).calls = [] := by
  have hsoup : (FetchNode.init inp out (some cfg) name).useSoup = false := by
    simp [FetchNode.init, hUse]
  rw [execute_str ext (FetchNode.init inp out (some cfg) name) state source hst,
      dispatch_dynamic ext (FetchNode.init inp out (some cfg) name) state source
        hnotdir hhttp hsoup,
      dynamicFetch_noattr ext (FetchNode.init inp out (some cfg) name) state source rfl]
  exact ⟨rfl, rfl, rfl⟩

/-- Witness for C9 at a concrete configuration and state. -/
theorem dynamic_path_attributeError_witness :
    ((FetchNode.init "url" ["doc"] (some cfgNoSoup) "Fetch").execute ext404 stateUrl).error =
      some (.attributeError "node_config") ∧
    ((FetchNode.init "url" ["doc"] (some cfgNoSoup) "Fetch").execute ext404 stateUrl).state =
      stateUrl ∧
    ((FetchNode.init "url" ["doc"] (some cfgNoSoup) "Fetch").execute ext404 stateUrl).calls =
      [] :=
  dynamic_path_attributeError ext404 "url" "Fetch" "http://example.com/missing"
    ["doc"] cfgNoSoup stateUrl rfl (by decide) rfl (by decide)

/-- C2: with the static strategy and a 200 response, the extracted link
sequence is exactly the document-order filterMap of the href lookup over
all anchor elements of the parsed body (so duplicates are preserved and
anchors lacking an href are skipped), and the produced document's content
is cleanup_html of the prettified soup together with that link list; in
particular when the parse of the body is exampleSoup — the parse tree of
exampleBody — the link sequence is exactly /a then /b. -/
theorem static_200_links_content (ext : Ext) (node : FetchNode)
    (state : StateMap) (source o : String)
    (hnotdir : ¬(node.input = "json_dir" ∨ node.input = "xml_dir" ∨ node.input = "csv_dir"))
    (hst : state (inputKey node) = some (.str source))
    (hhttp : startswith source "http" = true)
    (hsoup : node.useSoup = true)
    (hstatus : (ext.get source).1 = 200)
    (ho : node.output.head? = some o) :
    (node.execute ext state).error = none ∧
    (node.execute ext state).state o =
      some (.docs [⟨ext.cleanup_html (ext.prettify (ext.parse (ext.get source).2))
        (some (linkUrls (ext.parse (ext.get source).2))), []⟩]) ∧
    linkUrls (ext.parse (ext.get source).2) =
      (findAnchors (ext.parse (ext.get source).2)).filterMap
        (fun attrs => attrs.lookup "href") ∧
    (ext.parse (ext.get source).2 = exampleSoup →
      linkUrls (ext.parse (ext.get source).2) = ["/a", "/b"]) := by
  rw [execute_str ext node state source hst,
      dispatch_static ext node state source hnotdir hhttp hsoup,
      staticFetch_200 ext node state source hstatus]
  refine ⟨?_, ?_, extractHrefs_eq_filterMap _, ?_⟩
  · unfold writeOutput
    rw [ho]
  · unfold writeOutput
    rw [ho]
    simp
  · intro hpe
    rw [hpe]
    decide

/-- Witness for C2 at a concrete node, state and 200 response whose body is
exampleBody, parsed to exampleSoup. -/
theorem static_200_links_content_witness :
    (nodeDefault.execute ext200 stateUrl).error = none ∧
    (nodeDefault.execute ext200 stateUrl).state "doc" =
      some (.docs [⟨ext200.cleanup_html (ext200.prettify exampleSoup)
        (some (linkUrls exampleSoup)), []⟩]) ∧
    linkUrls exampleSoup = ["/a", "/b"] :=
  ⟨(static_200_links_content ext200 nodeDefault stateUrl
      "http://example.com/missing" "doc" (by decide) rfl (by decide) rfl rfl rfl).1,
   (static_200_links_content ext200 nodeDefault stateUrl
      "http://example.com/missing" "doc" (by decide) rfl (by decide) rfl rfl rfl).2.1,
   (static_200_links_content ext200 nodeDefault stateUrl
      "http://example.com/missing" "doc" (by decide) rfl (by decide) rfl rfl rfl).2.2.2 rfl⟩

/-- C6: every invocation that completes successfully — whichever of the
literal pass-through, local cleanup, static fetch or dynamic render
strategies was taken — writes a sequence containing exactly one document to
the first output key. -/
theorem output_single_document (ext : Ext) (node : FetchNode)
    (state : StateMap) (h : (node.execute ext state).error = none) :
    ∃ o d, node.output.head? = some o ∧
      (node.execute ext state).state o = some (.docs [d]) := by
  rcases hst : state (inputKey node) with _ | v
  · rw [execute_keyError ext node state hst] at h
    exact Option.noConfusion h
  · cases v with
    | docs ds =>
        rw [execute_typeError ext node state ds hst] at h
        exact Option.noConfusion h
    | str source =>
        rw [execute_str ext node state source hst] at h ⊢
        unfold dispatch at h ⊢
        by_cases h1 : node.input = "json_dir" ∨ node.input = "xml_dir" ∨ node.input = "csv_dir"
        · rw [if_pos h1] at h ⊢
          obtain ⟨o, ho, hs⟩ := writeOutput_ok node state _ _ h
          exact ⟨o, _, ho, hs⟩
        · rw [if_neg h1] at h ⊢
          by_cases h2 : startswith source "http" = false
          · rw [if_pos h2] at h ⊢
            obtain ⟨o, ho, hs⟩ := writeOutput_ok node state _ _ h
            exact ⟨o, _, ho, hs⟩
          · rw [if_neg h2] at h ⊢
            by_cases h3 : node.useSoup = true
            · rw [if_pos h3] at h ⊢
              unfold staticFetch at h ⊢
              by_cases h4 : (ext.get source).1 = 200
              · rw [if_pos h4] at h ⊢
                obtain ⟨o, ho, hs⟩ := writeOutput_ok node state _ _ h
                exact ⟨o, _, ho, hs⟩
              · rw [if_neg h4] at h
                exact Option.noConfusion h
            · rw [if_neg h3] at h ⊢
              unfold dynamicFetch at h ⊢
              cases hcfg : node.node_config with
              | none =>
                  rw [hcfg] at h
                  exact Option.noConfusion h
              | some cfgOpt =>
                  rw [hcfg] at h
                  obtain ⟨o, ho, hs⟩ := writeOutput_ok node state _ _ h
                  exact ⟨o, _, ho, hs⟩

/-- Witness for C6 at a concrete successful invocation. -/
theorem output_single_document_witness :
    ∃ o d, nodeDir.output.head? = some o ∧
      (nodeDir.execute ext404 stateDir).state o = some (.docs [d]) :=
  output_single_document ext404 nodeDir stateDir rfl

/-- C7: for every input state and every invocation, every key other than
the first declared output key maps to the same value after the invocation
as before it — including on failing invocations, since every raised error
precedes the single state update. -/
theorem frame_only_output_key (ext : Ext) (node : FetchNode)
    (state : StateMap) (k : String) (hk : node.output.head? ≠ some k) :
    (node.execute ext state).state k = state k := by
  rcases hst : state (inputKey node) with _ | v
  · rw [execute_keyError ext node state hst]
  · cases v with
    | docs ds => rw [execute_typeError ext node state ds hst]
    | str source =>
        rw [execute_str ext node state source hst]
        unfold dispatch
        by_cases h1 : node.input = "json_dir" ∨ node.input = "xml_dir" ∨ node.input = "csv_dir"
        · rw [if_pos h1]
          exact writeOutput_frame node state _ _ k hk
        · rw [if_neg h1]
          by_cases h2 : startswith source "http" = false
          · rw [if_pos h2]
            exact writeOutput_frame node state _ _ k hk
          · rw [if_neg h2]
            by_cases h3 : node.useSoup = true
            · rw [if_pos h3]
              unfold staticFetch
              by_cases h4 : (ext.get source).1 = 200
              · rw [if_pos h4]
                exact writeOutput_frame node state _ _ k hk
              · rw [if_neg h4]
            · rw [if_neg h3]
              unfold dynamicFetch
              cases hcfg : node.node_config with
              | none => rfl
              | some cfgOpt =>
                  exact writeOutput_frame node state _ _ k hk

/-- Witness for C7 at a concrete invocation and a non-output key. -/
theorem frame_only_output_key_witness :
    (nodeDir.execute ext404 stateDir).state "other" = stateDir "other" :=
  frame_only_output_key ext404 nodeDir stateDir "other" (by decide)

/-- C8: the configuration fields default to useSoup = true, headless = true
and verbose = false when node_config is absent or omits the corresponding
key. Once set at construction the fields are immutable for the node's
lifetime: in this embedding the constructed FetchNode value is read-only —
execute takes it unchanged and no operation rebuilds it, mirroring the
source, which assigns the attributes once in the constructor and never
reassigns them. -/
theorem config_defaults (inp name : String) (out : List String) :
    ((FetchNode.init inp out none name).useSoup = true ∧
     (FetchNode.init inp out none name).headless = true ∧
     (FetchNode.init inp out none name).verbose = false) ∧
    ∀ cfg : NodeConfigDict,
      (cfg.useSoup = none → (FetchNode.init inp out (some cfg) name).useSoup = true) ∧
      (cfg.headless = none → (FetchNode.init inp out (some cfg) name).headless = true) ∧
      (cfg.verbose = none → (FetchNode.init inp out (some cfg) name).verbose = false) := by
  refine ⟨⟨rfl, rfl, rfl⟩, fun cfg => ⟨fun h => ?_, fun h => ?_, fun h => ?_⟩⟩
  all_goals simp [FetchNode.init, h]

/-- Witness for C8 at concrete constructor inputs and a config omitting the
three flag keys. -/
theorem config_defaults_witness :
    ((FetchNode.init "url" ["doc"] none "Fetch").useSoup = true ∧
     (FetchNode.init "url" ["doc"] none "Fetch").headless = true ∧
     (FetchNode.init "url" ["doc"] none "Fetch").verbose = false) ∧
    ((FetchNode.init "url" ["doc"] (some cfgEndpointOnly) "Fetch").useSoup = true ∧
     (FetchNode.init "url" ["doc"] (some cfgEndpointOnly) "Fetch").headless = true ∧
     (FetchNode.init "url" ["doc"] (some cfgEndpointOnly) "Fetch").verbose = false) :=
  ⟨(config_defaults "url" "Fetch" ["doc"]).1,
   ((config_defaults "url" "Fetch" ["doc"]).2 cfgEndpointOnly).1 rfl,
   ((config_defaults "url" "Fetch" ["doc"]).2 cfgEndpointOnly).2.1 rfl,
   ((config_defaults "url" "Fetch" ["doc"]).2 cfgEndpointOnly).2.2 rfl⟩

/-- C10: for a non-literal source, classification as remote is decided
solely by the four-character prefix http of the reference: any reference
starting with http — including httpd.conf, which is not an HTTP(S) URL —
is treated as remote and a GET is attempted on it, while every other
reference is treated as a local path, fetch-free, its document built from
the cleaned reference with metadata source = local_dir. -/
theorem http_prefix_classification (ext : Ext) (node : FetchNode)
    (state : StateMap) (source : String)
    (hnotdir : ¬(node.input = "json_dir" ∨ node.input = "xml_dir" ∨ node.input = "csv_dir"))
    (hst : state (inputKey node) = some (.str source))
    (hsoup : node.useSoup = true) :
    (startswith source "http" = true →
      (node.execute ext state).calls = [Call.get source]) ∧
    (startswith source "http" = false →
      (node.execute ext state).calls = [] ∧
      ∀ o, node.output.head? = some o →
        (node.execute ext state).state o =
          some (.docs [⟨ext.cleanup_html source none, [("source", "local_dir")]⟩])) ∧
    startswith "httpd.conf" "http" = true := by
  refine ⟨?_, ?_, by decide⟩
  · intro hhttp
    rw [execute_str ext node state source hst,
        dispatch_static ext node state source hnotdir hhttp hsoup]
    unfold staticFetch
    by_cases h4 : (ext.get source).1 = 200
    · rw [if_pos h4]
      exact writeOutput_calls node state _ _
    · rw [if_neg h4]
  · intro hlocal
    rw [execute_str ext node state source hst,
        dispatch_local ext node state source hnotdir hlocal]
    refine ⟨writeOutput_calls node state _ _, ?_⟩
    intro o ho
    unfold writeOutput
    rw [ho]
    simp

/-- Witness for C10 at a concrete node and a reference with the http
prefix. -/
theorem http_prefix_classification_witness :
    (nodeDefault.execute ext404 stateUrl).calls =
      [Call.get "http://example.com/missing"] ∧
    startswith "httpd.conf" "http" = true :=
  ⟨(http_prefix_classification ext404 nodeDefault stateUrl
      "http://example.com/missing" (by decide) rfl rfl).1 (by decide),
   (http_prefix_classification ext404 nodeDefault stateUrl
      "http://example.com/missing" (by decide) rfl rfl).2.2⟩

end ScrapeGraph
